import Mathlib

/-!
Verification of the credential-based authentication workflow in
`src/server.js` (signup, login, profile, logout) against its
natural-language specification.

The Express handlers are embedded as pure Lean functions over explicit
state: the `users` table (a Postgres table with a UNIQUE email column)
becomes a list of accounts plus a next-serial counter, the
`connect-pg-simple` session store becomes an association list from opaque
tokens to session records, and each handler takes its inputs (request
body, presented session token, current time, and the fresh token / bcrypt
salt that the libraries would generate) explicitly and returns the HTTP
response together with the updated stores.  JSON response bodies are
embedded as ordered key/value lists so that status codes and messages can
be compared exactly.
-/

namespace SimpleAuth

/-- JSON primitive values appearing in the server's responses. -/
inductive JPrim where
  | str (s : String)
  | num (n : Nat)
  | jbool (b : Bool)
deriving DecidableEq

/-- JSON values appearing in the server's responses: a primitive, or a
one-level object of primitives (the `user` object of `/profile`). -/
inductive JVal where
  | prim (p : JPrim)
  | obj (fields : List (String × JPrim))
deriving DecidableEq

/-- An HTTP response: status code and JSON object body, embedded as an
ordered list of key/value pairs. -/
structure HttpResponse where
  status : Nat
  body : List (String × JVal)
deriving DecidableEq

/-- `res.status(code).json({ error: msg })` — the shape shared by every
error return in `server.js`. -/
def errorResp (status : Nat) (msg : String) : HttpResponse :=
  ⟨status, [("error", .prim (.str msg))]⟩

/-- A row of the `users` table (`server.js` lines 23–28): serial id,
UNIQUE email, bcrypt digest, creation timestamp. -/
structure Account where
  id : Nat
  email : String
  password_hash : String
  created_at : Nat
deriving DecidableEq

/-- The `users` table state: its rows plus the next value of the SERIAL
id sequence. -/
structure Db where
  users : List Account
  nextId : Nat
deriving DecidableEq

/-- `findUserByEmail` (`server.js` lines 57–60): exact-match SELECT on the
email column; at most one row under the UNIQUE constraint, modelled as the
first match. -/
def findUserByEmail (db : Db) (email : String) : Option Account :=
  db.users.find? (fun u => u.email == email)

/-- The profile handler's `SELECT … WHERE id = $1` (`server.js` line
112). -/
def findById (db : Db) (id : Nat) : Option Account :=
  db.users.find? (fun u => u.id == id)

/-- The `INSERT INTO users … RETURNING id, email` of the signup handler
(`server.js` lines 72–75).  The UNIQUE constraint on email is enforced by
the store itself: inserting a duplicate email raises a uniqueness
violation, embedded as `none` (the thrown error that the handler's catch
block receives). -/
def insertUser (db : Db) (email phash : String) (now : Nat) :
    Option (Account × Db) :=
  if db.users.any (fun u => u.email == email) then
    none
  else
    let a : Account := ⟨db.nextId, email, phash, now⟩
    some (a, ⟨db.users ++ [a], db.nextId + 1⟩)

/-- JavaScript falsiness of a request-body field as tested by
`if (!email || !password)`: the field is missing, or the empty string. -/
def falsy : Option String → Bool
  | none => true
  | some s => s == ""

/-- Request body of `POST /signup` and `POST /login`; each field may be
absent. -/
structure Body where
  email : Option String
  password : Option String
deriving DecidableEq

/-- Modelled from the spec: `bcrypt.hash(password, 10)` computes a salted
one-way digest, with a fresh random salt drawn on every call (spec §4.3).
Randomness is made explicit: the salt is an input, and a digest is the
salt followed by a reserved separator and the hashed material.  The salt
never contains the separator. -/
def bcrypt_hash (plaintext salt : String) : String :=
  ⟨salt.data ++ '$' :: plaintext.data⟩

/-- Helper for `bcrypt_compare`: the characters after the first separator
of a digest, or `none` for a digest with no separator. -/
def afterSep : List Char → Option (List Char)
  | [] => none
  | c :: cs => if c = '$' then some cs else afterSep cs

/-- Modelled from the spec: `bcrypt.compare(password, digest)` is true iff
the plaintext hashes, under the salt embedded in the digest, to the
digest (spec §4.3); a malformed digest fails verification rather than
crashing. -/
def bcrypt_compare (plaintext digest : String) : Bool :=
  afterSep digest.data == some plaintext.data

/-- A persisted session record: the `userId` and `email` the handlers
write into `req.session`, plus the absolute expiry instant the store
derives from the cookie `maxAge` (`server.js` line 50). -/
structure SessionRecord where
  userId : Nat
  email : String
  expiresAt : Nat
deriving DecidableEq

/-- The `connect-pg-simple` session table: opaque token to record. -/
abbrev SessionStore := List (String × SessionRecord)

/-- Session lifetime: `cookie.maxAge = 24*60*60*1000` ms (`server.js`
line 50). -/
def sessionTTLms : Nat := 24 * 60 * 60 * 1000

/-- Modelled from the spec: `SessionStore.get(token)` returns the record
if present and not expired; an expired record is treated as absent (lazy
expiry, spec §4.2). -/
def sessionGet (store : SessionStore) (token : String) (now : Nat) :
    Option SessionRecord :=
  match store.lookup token with
  | some r => if now < r.expiresAt then some r else none
  | none => none

/-- Modelled from the spec: `req.session.destroy` removes the token's
record; destroying a nonexistent token is not an error (spec §4.2). -/
def sessionDestroy (store : SessionStore) (token : String) : SessionStore :=
  store.filter (fun p => p.1 ≠ token)

/-- Modelled from the spec: persisting `req.session` after the handler
sets `userId`/`email` stores a record under a fresh opaque token, with
absolute expiry `now + ttl` (spec §4.2, `server.js` lines 42–51). -/
def sessionCreate (store : SessionStore) (token : String) (userId : Nat)
    (email : String) (now : Nat) : SessionStore :=
  (token, ⟨userId, email, now + sessionTTLms⟩) :: store

/-- The externally visible store/hasher interactions of a handler, used
to state that validation failures touch none of them. -/
inductive Effect where
  | dbSelect
  | bcryptHash
  | dbInsert
  | bcryptCompare
  | sessionWrite
deriving DecidableEq

/-- `POST /signup` (`server.js` lines 63–85).  `dbPre` is the table state
seen by the pre-check SELECT and `dbIns` the state seen by the INSERT;
in a sequential run they coincide, and a concurrent signup that commits
between the two steps makes them differ.  A uniqueness violation thrown
by the INSERT lands in the catch block, which answers 500.  Returns the
response, the resulting table state, the resulting session store, and
the store/hasher interactions performed. -/
def signup (body : Body) (dbPre dbIns : Db) (sess : SessionStore)
    (tok salt : String) (now : Nat) :
    HttpResponse × Db × SessionStore × List Effect :=
  if falsy body.email || falsy body.password then
    (errorResp 400 "Email and password required", dbIns, sess, [])
  else
    let email := body.email.getD ""
    let password := body.password.getD ""
    match findUserByEmail dbPre email with
    | some _ => (errorResp 409 "User already exists", dbIns, sess, [.dbSelect])
    | none =>
      let phash := bcrypt_hash password salt
      match insertUser dbIns email phash now with
      | none =>
        (errorResp 500 "Server error", dbIns, sess,
          [.dbSelect, .bcryptHash, .dbInsert])
      | some (a, db') =>
        (⟨200, [("success", .prim (.jbool true)),
                ("message", .prim (.str "Account created")),
                ("email", .prim (.str a.email))]⟩,
         db', sessionCreate sess tok a.id a.email now,
         [.dbSelect, .bcryptHash, .dbInsert, .sessionWrite])

/-- `POST /login` (`server.js` lines 88–107).  Returns the response, the
resulting session store, and the interactions performed. -/
def login (body : Body) (db : Db) (sess : SessionStore) (tok : String)
    (now : Nat) : HttpResponse × SessionStore × List Effect :=
  if falsy body.email || falsy body.password then
    (errorResp 400 "Email and password required", sess, [])
  else
    let email := body.email.getD ""
    let password := body.password.getD ""
    match findUserByEmail db email with
    | none => (errorResp 401 "Invalid credentials", sess, [.dbSelect])
    | some u =>
      if bcrypt_compare password u.password_hash then
        (⟨200, [("success", .prim (.jbool true)),
                ("message", .prim (.str "Logged in")),
                ("email", .prim (.str u.email))]⟩,
         sessionCreate sess tok u.id u.email now,
         [.dbSelect, .bcryptCompare, .sessionWrite])
      else
        (errorResp 401 "Invalid credentials", sess,
          [.dbSelect, .bcryptCompare])

/-- `GET /profile` (`server.js` lines 110–115).  The middleware resolves
the presented cookie token against the session store (absent or expired
records yield a fresh empty session, whose `userId` is falsy); the
handler then re-fetches the account by id. -/
def profile (sess : SessionStore) (token : Option String) (now : Nat)
    (db : Db) : HttpResponse :=
  match token.bind (fun t => sessionGet sess t now) with
  | none => errorResp 401 "Not authenticated"
  | some r =>
    if r.userId == 0 then errorResp 401 "Not authenticated"
    else
      match findById db r.userId with
      | none => errorResp 404 "User not found"
      | some a =>
        ⟨200, [("user", .obj [("id", .num a.id),
                              ("email", .str a.email),
                              ("created_at", .num a.created_at)])]⟩

/-- `POST /logout` (`server.js` lines 118–123): destroy the presented
session (a no-op when no token or no record exists) and answer
`{ success: true }`. -/
def logout (sess : SessionStore) (token : Option String) :
    HttpResponse × SessionStore :=
  let sess' := match token with
    | some t => sessionDestroy sess t
    | none => sess
  (⟨200, [("success", .prim (.jbool true))]⟩, sess')

/-! ### Helper lemmas -/

lemma any_email_eq_false {db : Db} {e : String}
    (h : findUserByEmail db e = none) :
    (db.users.any fun u => u.email == e) = false := by
  simp only [findUserByEmail, List.find?_eq_none] at h
  simp [List.any_eq_false] at h ⊢
  exact h

lemma find?_append_of_none {α : Type} {l : List α} {p : α → Bool} {a : α}
    (h : l.find? p = none) (ha : p a = true) :
    (l ++ [a]).find? p = some a := by
  rw [List.find?_append, h]
  simp [List.find?, ha]

lemma find?_append_of_some {α : Type} {l l₂ : List α} {p : α → Bool} {a : α}
    (h : l.find? p = some a) :
    (l ++ l₂).find? p = some a := by
  rw [List.find?_append, h]
  rfl

lemma lookup_sessionDestroy (sess : SessionStore) (t : String) :
    (sessionDestroy sess t).lookup t = none := by
  unfold sessionDestroy
  induction sess with
  | nil => rfl
  | cons x xs ih =>
    simp only [List.filter]
    by_cases hx : x.1 = t
    · have hd : decide (x.1 ≠ t) = false := by simp [hx]
      rw [hd]
      exact ih
    · have hd : decide (x.1 ≠ t) = true := by simp [hx]
      rw [hd]
      simp only [List.lookup]
      have ht : (t == x.1) = false := by
        simp only [beq_eq_false_iff_ne, ne_eq]
        exact fun h => hx h.symm
      rw [ht]
      exact ih

lemma afterSep_append {salt p : List Char} (h : '$' ∉ salt) :
    afterSep (salt ++ '$' :: p) = some p := by
  induction salt with
  | nil => simp [afterSep]
  | cons c cs ih =>
    simp only [List.cons_append, afterSep]
    have hc : ¬c = '$' := fun hc => h (by simp [hc])
    rw [if_neg hc]
    exact ih fun hm => h (by simp [hm])

lemma bcrypt_compare_hash {p salt : String} (h : '$' ∉ salt.data) :
    bcrypt_compare p (bcrypt_hash p salt) = true := by
  show (afterSep (salt.data ++ '$' :: p.data) == some p.data) = true
  rw [afterSep_append h]
  simp

lemma bcrypt_hash_inj_salt {p s₁ s₂ : String}
    (h : bcrypt_hash p s₁ = bcrypt_hash p s₂) : s₁ = s₂ := by
  have hd : s₁.data ++ '$' :: p.data = s₂.data ++ '$' :: p.data :=
    congrArg String.data h
  have hc := List.append_cancel_right hd
  cases s₁
  cases s₂
  exact congrArg String.mk hc

/-- The shape of a successful signup: the account row appended with the
next serial id, the success response carrying the email, and a fresh
session. -/
lemma signup_success (db : Db) (sess : SessionStore) (e p t salt : String)
    (now : Nat) (he : e ≠ "") (hp : p ≠ "")
    (hf : findUserByEmail db e = none) :
    signup ⟨some e, some p⟩ db db sess t salt now =
      (⟨200, [("success", .prim (.jbool true)),
              ("message", .prim (.str "Account created")),
              ("email", .prim (.str e))]⟩,
       ⟨db.users ++ [⟨db.nextId, e, bcrypt_hash p salt, now⟩], db.nextId + 1⟩,
       sessionCreate sess t db.nextId e now,
       [.dbSelect, .bcryptHash, .dbInsert, .sessionWrite]) := by
  have ha := any_email_eq_false hf
  simp [signup, falsy, he, hp, hf, insertUser, ha]

/-! ### Claims -/

/-- C1: for every non-empty email and non-empty password not already
registered, Signup(email, password) followed by Login(email, password)
against the resulting store yields a successful login whose response
email equals the email returned by the signup. -/
theorem C1_signup_then_login (db : Db) (sess sess₂ : SessionStore)
    (e p salt t₁ t₂ : String) (n₁ n₂ : Nat)
    (he : e ≠ "") (hp : p ≠ "")
    (hf : findUserByEmail db e = none) (hs : '$' ∉ salt.data) :
    (login ⟨some e, some p⟩
        (signup ⟨some e, some p⟩ db db sess t₁ salt n₁).2.1
        sess₂ t₂ n₂).1.status = 200 ∧
    (login ⟨some e, some p⟩
        (signup ⟨some e, some p⟩ db db sess t₁ salt n₁).2.1
        sess₂ t₂ n₂).1.body.lookup "email" =
      (signup ⟨some e, some p⟩ db db sess t₁ salt n₁).1.body.lookup "email" ∧
    (signup ⟨some e, some p⟩ db db sess t₁ salt n₁).1.body.lookup "email" =
      some (.prim (.str e)) := by
  rw [signup_success db sess e p t₁ salt n₁ he hp hf]
  have hfind : findUserByEmail
      ⟨db.users ++ [⟨db.nextId, e, bcrypt_hash p salt, n₁⟩], db.nextId + 1⟩ e =
      some ⟨db.nextId, e, bcrypt_hash p salt, n₁⟩ := by
    unfold findUserByEmail at hf ⊢
    exact find?_append_of_none hf (by simp)
  have hcmp := bcrypt_compare_hash (p := p) hs
  simp [login, falsy, he, hp, hfind, hcmp, List.lookup]

/-- C1 witness: a concrete signup-then-login run on the empty store. -/
theorem C1_witness :
    (login ⟨some "a@x.com", some "pw1"⟩
        (signup ⟨some "a@x.com", some "pw1"⟩ ⟨[], 1⟩ ⟨[], 1⟩ [] "t1" "s0" 0).2.1
        [] "t2" 1).1.status = 200 ∧
    (login ⟨some "a@x.com", some "pw1"⟩
        (signup ⟨some "a@x.com", some "pw1"⟩ ⟨[], 1⟩ ⟨[], 1⟩ [] "t1" "s0" 0).2.1
        [] "t2" 1).1.body.lookup "email" =
      (signup ⟨some "a@x.com", some "pw1"⟩ ⟨[], 1⟩ ⟨[], 1⟩ [] "t1" "s0" 0).1.body.lookup "email" ∧
    (signup ⟨some "a@x.com", some "pw1"⟩ ⟨[], 1⟩ ⟨[], 1⟩ [] "t1" "s0" 0).1.body.lookup "email" =
      some (.prim (.str "a@x.com")) :=
  C1_signup_then_login ⟨[], 1⟩ [] [] "a@x.com" "pw1" "s0" "t1" "t2" 0 1
    (by decide) (by decide) rfl (by decide)

/-- C2: login with an unknown email and login with a known email but a
password that fails verification produce literally equal responses; when
the request passes field validation, both are 401 "Invalid credentials",
so the two failure causes are indistinguishable to the caller. -/
theorem C2_login_failures_indistinguishable (e p : String) (db₁ db₂ : Db)
    (sess : SessionStore) (t : String) (now : Nat) (u : Account)
    (h₁ : findUserByEmail db₁ e = none)
    (h₂ : findUserByEmail db₂ e = some u)
    (hw : bcrypt_compare p u.password_hash = false) :
    (login ⟨some e, some p⟩ db₁ sess t now).1 =
      (login ⟨some e, some p⟩ db₂ sess t now).1 ∧
    (e ≠ "" → p ≠ "" →
      (login ⟨some e, some p⟩ db₁ sess t now).1 =
        errorResp 401 "Invalid credentials" ∧
      (login ⟨some e, some p⟩ db₂ sess t now).1 =
        errorResp 401 "Invalid credentials") := by
  by_cases he : e = ""
  · refine ⟨by simp [login, falsy, he], fun he' _ => absurd he he'⟩
  · by_cases hp : p = ""
    · refine ⟨by simp [login, falsy, hp], fun _ hp' => absurd hp hp'⟩
    · refine ⟨?_, fun _ _ => ⟨?_, ?_⟩⟩ <;>
        simp [login, falsy, he, hp, h₁, h₂, hw]

/-- C2 witness: unknown email on an empty store versus a wrong password
against a registered account. -/
theorem C2_witness :
    (login ⟨some "a@x.com", some "wrong"⟩ ⟨[], 1⟩ [] "t" 0).1 =
      (login ⟨some "a@x.com", some "wrong"⟩
        ⟨[⟨1, "a@x.com", "s0$pw1", 0⟩], 2⟩ [] "t" 0).1 ∧
    ("a@x.com" ≠ "" → "wrong" ≠ "" →
      (login ⟨some "a@x.com", some "wrong"⟩ ⟨[], 1⟩ [] "t" 0).1 =
        errorResp 401 "Invalid credentials" ∧
      (login ⟨some "a@x.com", some "wrong"⟩
        ⟨[⟨1, "a@x.com", "s0$pw1", 0⟩], 2⟩ [] "t" 0).1 =
        errorResp 401 "Invalid credentials") :=
  C2_login_failures_indistinguishable "a@x.com" "wrong" ⟨[], 1⟩
    ⟨[⟨1, "a@x.com", "s0$pw1", 0⟩], 2⟩ [] "t" 0 ⟨1, "a@x.com", "s0$pw1", 0⟩
    rfl rfl (by decide)

/-- C3 counterexample: a uniqueness conflict reported by the store at
INSERT time (the email is absent at the pre-check but present at the
insert, the race the claim describes) is answered with the generic 500
"Server error" of the catch block, not with the 409 ConflictError the
claim requires. -/
theorem C3_counterexample :
    (signup ⟨some "a@x.com", some "pw"⟩ ⟨[], 1⟩
        ⟨[⟨1, "a@x.com", "h0", 0⟩], 2⟩ [] "t" "s0" 5).1 =
      errorResp 500 "Server error" ∧
    (signup ⟨some "a@x.com", some "pw"⟩ ⟨[], 1⟩
        ⟨[⟨1, "a@x.com", "h0", 0⟩], 2⟩ [] "t" "s0" 5).1.status ≠ 409 ∧
    findUserByEmail ⟨[], 1⟩ "a@x.com" = none ∧
    ((⟨[⟨1, "a@x.com", "h0", 0⟩], 2⟩ : Db).users.any
      fun u => u.email == "a@x.com") = true := by
  decide

/-- C3 (amended): when the store reports a uniqueness conflict at INSERT
time after a clean pre-check, signup fails with the generic 500 "Server
error" of the per-route catch block — only the pre-check produces the
409 ConflictError — and no account is created. -/
theorem C3_race_returns_server_error (e p : String) (dbPre dbIns : Db)
    (sess : SessionStore) (t salt : String) (now : Nat)
    (he : e ≠ "") (hp : p ≠ "")
    (hpre : findUserByEmail dbPre e = none)
    (hins : (dbIns.users.any fun u => u.email == e) = true) :
    (signup ⟨some e, some p⟩ dbPre dbIns sess t salt now).1 =
      errorResp 500 "Server error" ∧
    (signup ⟨some e, some p⟩ dbPre dbIns sess t salt now).2.1 = dbIns ∧
    (signup ⟨some e, some p⟩ dbPre dbIns sess t salt now).2.2.1 = sess := by
  simp [signup, falsy, he, hp, hpre, insertUser, hins]

/-- C3 witness: the amended theorem at the counterexample's input. -/
theorem C3_witness :
    (signup ⟨some "a@x.com", some "pw"⟩ ⟨[], 1⟩
        ⟨[⟨1, "a@x.com", "h0", 0⟩], 2⟩ [] "t" "s0" 5).1 =
      errorResp 500 "Server error" ∧
    (signup ⟨some "a@x.com", some "pw"⟩ ⟨[], 1⟩
        ⟨[⟨1, "a@x.com", "h0", 0⟩], 2⟩ [] "t" "s0" 5).2.1 =
      ⟨[⟨1, "a@x.com", "h0", 0⟩], 2⟩ ∧
    (signup ⟨some "a@x.com", some "pw"⟩ ⟨[], 1⟩
        ⟨[⟨1, "a@x.com", "h0", 0⟩], 2⟩ [] "t" "s0" 5).2.2.1 = [] :=
  C3_race_returns_server_error "a@x.com" "pw" ⟨[], 1⟩
    ⟨[⟨1, "a@x.com", "h0", 0⟩], 2⟩ [] "t" "s0" 5
    (by decide) (by decide) rfl (by decide)

/-- C4: signup with an already-registered email fails with 409 "User
already exists" for every (validation-passing) password, including the
existing account's own password, and changes neither the user table nor
the session store. -/
theorem C4_signup_existing_email_conflict (e p : String) (db : Db)
    (sess : SessionStore) (t salt : String) (now : Nat) (u : Account)
    (he : e ≠ "") (hp : p ≠ "") (hex : findUserByEmail db e = some u) :
    (signup ⟨some e, some p⟩ db db sess t salt now).1 =
      errorResp 409 "User already exists" ∧
    (signup ⟨some e, some p⟩ db db sess t salt now).2.1 = db ∧
    (signup ⟨some e, some p⟩ db db sess t salt now).2.2.1 = sess := by
  simp [signup, falsy, he, hp, hex]

/-- C4 witness: re-signup with the existing account's email and its own
matching password still answers 409 and leaves the store unchanged. -/
theorem C4_witness :
    (signup ⟨some "a@x.com", some "pw1"⟩ ⟨[⟨1, "a@x.com", "s0$pw1", 0⟩], 2⟩
        ⟨[⟨1, "a@x.com", "s0$pw1", 0⟩], 2⟩ [] "t" "s1" 7).1 =
      errorResp 409 "User already exists" ∧
    (signup ⟨some "a@x.com", some "pw1"⟩ ⟨[⟨1, "a@x.com", "s0$pw1", 0⟩], 2⟩
        ⟨[⟨1, "a@x.com", "s0$pw1", 0⟩], 2⟩ [] "t" "s1" 7).2.1 =
      ⟨[⟨1, "a@x.com", "s0$pw1", 0⟩], 2⟩ ∧
    (signup ⟨some "a@x.com", some "pw1"⟩ ⟨[⟨1, "a@x.com", "s0$pw1", 0⟩], 2⟩
        ⟨[⟨1, "a@x.com", "s0$pw1", 0⟩], 2⟩ [] "t" "s1" 7).2.2.1 = [] :=
  C4_signup_existing_email_conflict "a@x.com" "pw1"
    ⟨[⟨1, "a@x.com", "s0$pw1", 0⟩], 2⟩ [] "t" "s1" 7 ⟨1, "a@x.com", "s0$pw1", 0⟩
    (by decide) (by decide) rfl

/-- C5: after logout destroys a session token, a profile request
presenting that token fails 401 "Not authenticated" (at any later time,
against any user table), and logging out a second time with the same,
now absent, token still succeeds — both logout calls answer
`success: true`. -/
theorem C5_logout_idempotent_and_revoking (sess : SessionStore) (t : String)
    (now : Nat) (db : Db) :
    (logout sess (some t)).1 = ⟨200, [("success", .prim (.jbool true))]⟩ ∧
    profile (logout sess (some t)).2 (some t) now db =
      errorResp 401 "Not authenticated" ∧
    (logout (logout sess (some t)).2 (some t)).1 =
      ⟨200, [("success", .prim (.jbool true))]⟩ := by
  refine ⟨rfl, ?_, rfl⟩
  have h := lookup_sessionDestroy sess t
  simp [logout, profile, sessionGet, h]

/-- C6: a profile request with a token whose expiry instant has passed is
answered exactly like one with no token or an unknown token — 401 "Not
authenticated" — and sessions are issued with the fixed 24-hour TTL
(`expiresAt = now + 24*60*60*1000`). -/
theorem C6_expired_token_is_absent (sess : SessionStore) (t : String)
    (r : SessionRecord) (now : Nat) (db : Db)
    (hl : sess.lookup t = some r) (hexp : r.expiresAt ≤ now) :
    profile sess (some t) now db = profile sess none now db ∧
    profile sess none now db = errorResp 401 "Not authenticated" ∧
    (∀ t₂, sess.lookup t₂ = none →
      profile sess (some t₂) now db = errorResp 401 "Not authenticated") ∧
    (∀ tok uid em n₀,
      (sessionCreate sess tok uid em n₀).lookup tok =
        some ⟨uid, em, n₀ + 24 * 60 * 60 * 1000⟩) := by
  have hng : ¬now < r.expiresAt := not_lt.mpr hexp
  refine ⟨?_, rfl, ?_, ?_⟩
  · simp [profile, sessionGet, hl, hng]
  · intro t₂ h₂
    simp [profile, sessionGet, h₂]
  · intro tok uid em n₀
    simp [sessionCreate, sessionTTLms, List.lookup]

/-- C6 witness: a session that expired at instant 10, queried at instant
10, next to an unknown token and a fresh 24-hour session. -/
theorem C6_witness :
    profile [("t", ⟨1, "a@x.com", 10⟩)] (some "t") 10 ⟨[], 1⟩ =
      profile [("t", ⟨1, "a@x.com", 10⟩)] none 10 ⟨[], 1⟩ ∧
    profile [("t", ⟨1, "a@x.com", 10⟩)] none 10 ⟨[], 1⟩ =
      errorResp 401 "Not authenticated" ∧
    profile [("t", ⟨1, "a@x.com", 10⟩)] (some "t2") 10 ⟨[], 1⟩ =
      errorResp 401 "Not authenticated" ∧
    (sessionCreate [("t", ⟨1, "a@x.com", 10⟩)] "t3" 1 "a@x.com" 0).lookup "t3" =
      some ⟨1, "a@x.com", 0 + 24 * 60 * 60 * 1000⟩ := by
  have h := C6_expired_token_is_absent [("t", ⟨1, "a@x.com", 10⟩)] "t"
    ⟨1, "a@x.com", 10⟩ 10 ⟨[], 1⟩ rfl (by decide)
  exact ⟨h.1, h.2.1, h.2.2.1 "t2" rfl, h.2.2.2 "t3" 1 "a@x.com" 0⟩

/-- C7: with a valid (present, unexpired, nonzero-userId) session, the
profile response is exactly the referenced account's id, email and
created_at — the body's only top-level key is `user` and its only inner
keys are `id`, `email`, `created_at`, so the password digest is never
included — and a session whose account has since disappeared is answered
404 "User not found". -/
theorem C7_profile_reflects_account (sess : SessionStore) (t : String)
    (now : Nat) (db : Db) (r : SessionRecord)
    (hs : sessionGet sess t now = some r) (hid : r.userId ≠ 0) :
    (∀ a, findById db r.userId = some a →
      profile sess (some t) now db =
        ⟨200, [("user", .obj [("id", .num a.id), ("email", .str a.email),
                              ("created_at", .num a.created_at)])]⟩ ∧
      (profile sess (some t) now db).body.map Prod.fst = ["user"] ∧
      (match (profile sess (some t) now db).body.lookup "user" with
        | some (.obj fs) => fs.map Prod.fst
        | _ => []) = ["id", "email", "created_at"]) ∧
    (findById db r.userId = none →
      profile sess (some t) now db = errorResp 404 "User not found") := by
  have h0 : (r.userId == 0) = false := by simp [hid]
  constructor
  · intro a ha
    refine ⟨?_, ?_, ?_⟩ <;> simp [profile, hs, h0, ha, List.lookup]
  · intro ha
    simp [profile, hs, h0, ha]

/-- C7 witness: a live session over a one-account table, and the same
session after the account row is gone. -/
theorem C7_witness :
    (profile [("t", ⟨1, "a@x.com", 99⟩)] (some "t") 0
        ⟨[⟨1, "a@x.com", "s0$pw1", 3⟩], 2⟩ =
      ⟨200, [("user", .obj [("id", .num 1), ("email", .str "a@x.com"),
                            ("created_at", .num 3)])]⟩) ∧
    profile [("t", ⟨1, "a@x.com", 99⟩)] (some "t") 0 ⟨[], 2⟩ =
      errorResp 404 "User not found" := by
  have h₁ := C7_profile_reflects_account [("t", ⟨1, "a@x.com", 99⟩)] "t" 0
    ⟨[⟨1, "a@x.com", "s0$pw1", 3⟩], 2⟩ ⟨1, "a@x.com", 99⟩ rfl (by decide)
  have h₂ := C7_profile_reflects_account [("t", ⟨1, "a@x.com", 99⟩)] "t" 0
    ⟨[], 2⟩ ⟨1, "a@x.com", 99⟩ rfl (by decide)
  exact ⟨(h₁.1 ⟨1, "a@x.com", "s0$pw1", 3⟩ rfl).1, h₂.2 rfl⟩

/-- C8: a signup or login request whose email or password is missing or
empty is answered 400 "Email and password required" with no interaction
with the user table, the hasher or the session store (empty effect list,
stores returned unchanged). -/
theorem C8_validation_short_circuits (body : Body) (dbIns db₂ : Db)
    (dbPre : Db) (sess : SessionStore) (t salt : String) (now : Nat)
    (h : (falsy body.email || falsy body.password) = true) :
    signup body dbPre dbIns sess t salt now =
      (errorResp 400 "Email and password required", dbIns, sess, []) ∧
    login body db₂ sess t now =
      (errorResp 400 "Email and password required", sess, []) := by
  constructor <;> simp [signup, login, h]

/-- C8 witness: a request with an email but no password. -/
theorem C8_witness :
    signup ⟨some "a@x.com", none⟩ ⟨[], 1⟩ ⟨[], 1⟩ [] "t" "s0" 0 =
      (errorResp 400 "Email and password required", ⟨[], 1⟩, [], []) ∧
    login ⟨some "a@x.com", none⟩ ⟨[], 1⟩ [] "t" 0 =
      (errorResp 400 "Email and password required", [], []) :=
  C8_validation_short_circuits ⟨some "a@x.com", none⟩ ⟨[], 1⟩ ⟨[], 1⟩ ⟨[], 1⟩
    [] "t" "s0" 0 (by decide)

/-- C10: a login that does not answer 200 — missing field, unknown email,
or failed password verification — returns the session store unchanged:
no session is written, upgraded or cleared by a failed login. -/
theorem C10_failed_login_preserves_session (body : Body) (db : Db)
    (sess : SessionStore) (t : String) (now : Nat)
    (h : (login body db sess t now).1.status ≠ 200) :
    (login body db sess t now).2.1 = sess := by
  by_cases hv : (falsy body.email || falsy body.password) = true
  · simp [login, hv]
  · cases hfind : findUserByEmail db (body.email.getD "") with
    | none => simp [login, hv, hfind]
    | some u =>
      cases hc : bcrypt_compare (body.password.getD "") u.password_hash with
      | false => simp [login, hv, hfind, hc]
      | true =>
        exact absurd (by simp [login, hv, hfind, hc]) h

/-- C10 witness: a login against an empty table leaves a pre-existing
session store intact. -/
theorem C10_witness :
    (login ⟨some "a@x.com", some "pw"⟩ ⟨[], 1⟩ [("tk", ⟨1, "a@x.com", 99⟩)]
        "t" 0).2.1 = [("tk", ⟨1, "a@x.com", 99⟩)] :=
  C10_failed_login_preserves_session ⟨some "a@x.com", some "pw"⟩ ⟨[], 1⟩
    [("tk", ⟨1, "a@x.com", 99⟩)] "t" 0 (by decide)

/-- C9: two signups with the same plaintext password and distinct salts
store two different digests, yet the shared plaintext verifies against
each account's own stored digest. -/
theorem C9_salted_digests_differ (db : Db) (sess : SessionStore)
    (e₁ e₂ p s₁ s₂ t₁ t₂ : String) (n₁ n₂ : Nat)
    (he₁ : e₁ ≠ "") (he₂ : e₂ ≠ "") (hne : e₁ ≠ e₂) (hp : p ≠ "")
    (hf₁ : findUserByEmail db e₁ = none) (hf₂ : findUserByEmail db e₂ = none)
    (hs₁ : '$' ∉ s₁.data) (hs₂ : '$' ∉ s₂.data) (hss : s₁ ≠ s₂) :
    ∃ a₁ a₂ : Account,
      findUserByEmail (signup ⟨some e₂, some p⟩
          (signup ⟨some e₁, some p⟩ db db sess t₁ s₁ n₁).2.1
          (signup ⟨some e₁, some p⟩ db db sess t₁ s₁ n₁).2.1
          sess t₂ s₂ n₂).2.1 e₁ = some a₁ ∧
      findUserByEmail (signup ⟨some e₂, some p⟩
          (signup ⟨some e₁, some p⟩ db db sess t₁ s₁ n₁).2.1
          (signup ⟨some e₁, some p⟩ db db sess t₁ s₁ n₁).2.1
          sess t₂ s₂ n₂).2.1 e₂ = some a₂ ∧
      a₁.password_hash ≠ a₂.password_hash ∧
      bcrypt_compare p a₁.password_hash = true ∧
      bcrypt_compare p a₂.password_hash = true := by
  rw [signup_success db sess e₁ p t₁ s₁ n₁ he₁ hp hf₁]
  have hf₂' : findUserByEmail
      ⟨db.users ++ [⟨db.nextId, e₁, bcrypt_hash p s₁, n₁⟩], db.nextId + 1⟩ e₂ =
      none := by
    unfold findUserByEmail at hf₂ ⊢
    rw [List.find?_append, hf₂]
    have hne' : (e₁ == e₂) = false := by simp [hne]
    simp [List.find?, hne']
  rw [signup_success _ sess e₂ p t₂ s₂ n₂ he₂ hp hf₂']
  refine ⟨⟨db.nextId, e₁, bcrypt_hash p s₁, n₁⟩,
          ⟨db.nextId + 1, e₂, bcrypt_hash p s₂, n₂⟩, ?_, ?_, ?_, ?_, ?_⟩
  · unfold findUserByEmail at hf₁ ⊢
    exact find?_append_of_some (find?_append_of_none hf₁ (by simp))
  · unfold findUserByEmail at hf₂' ⊢
    exact find?_append_of_none hf₂' (by simp)
  · intro h
    exact hss (bcrypt_hash_inj_salt h)
  · exact bcrypt_compare_hash hs₁
  · exact bcrypt_compare_hash hs₂

/-- C9 witness: two concrete signups of password "pw1" under salts "s0"
and "s1", starting from the empty table. -/
theorem C9_witness :
    ∃ a₁ a₂ : Account,
      findUserByEmail (signup ⟨some "b@x.com", some "pw1"⟩
          (signup ⟨some "a@x.com", some "pw1"⟩ ⟨[], 1⟩ ⟨[], 1⟩ [] "t1" "s0" 0).2.1
          (signup ⟨some "a@x.com", some "pw1"⟩ ⟨[], 1⟩ ⟨[], 1⟩ [] "t1" "s0" 0).2.1
          [] "t2" "s1" 1).2.1 "a@x.com" = some a₁ ∧
      findUserByEmail (signup ⟨some "b@x.com", some "pw1"⟩
          (signup ⟨some "a@x.com", some "pw1"⟩ ⟨[], 1⟩ ⟨[], 1⟩ [] "t1" "s0" 0).2.1
          (signup ⟨some "a@x.com", some "pw1"⟩ ⟨[], 1⟩ ⟨[], 1⟩ [] "t1" "s0" 0).2.1
          [] "t2" "s1" 1).2.1 "b@x.com" = some a₂ ∧
      a₁.password_hash ≠ a₂.password_hash ∧
      bcrypt_compare "pw1" a₁.password_hash = true ∧
      bcrypt_compare "pw1" a₂.password_hash = true :=
  C9_salted_digests_differ ⟨[], 1⟩ [] "a@x.com" "b@x.com" "pw1" "s0" "s1"
    "t1" "t2" 0 1 (by decide) (by decide) (by decide) (by decide) rfl rfl
    (by decide) (by decide) (by decide)

end SimpleAuth
